import Mathlib

/-!
Shallow embedding of the metric-derivation and validation pipeline of the
insurance-dashboard repository, together with its cache and request
deduplication layer. Numeric JavaScript values are modelled as exact
rationals; `Math.round` is modelled as `jsRound` (floor of x + 1/2, which is
the JavaScript half-up rounding). Missing / undefined numeric record fields
are modelled as `Option` values, matching the destructuring defaults of the
source. Asynchronous lookups (SEC EDGAR, FRED) are modelled by passing their
outcome as an explicit parameter.
-/

/-- Model of JavaScript `Math.round`: rounds half toward positive infinity.
Defined through the computable `Rat.floor` so that concrete instances can be
evaluated by `decide`. -/
def jsRound (x : ℚ) : ℤ := (x + 1/2).floor

/-- Model of `Math.round(x * 10) / 10` (round to one decimal place). -/
def round1 (x : ℚ) : ℚ := (jsRound (x * 10) : ℚ) / 10

/-- Model of `Math.round(x * 100) / 100` (round to two decimal places). -/
def round2 (x : ℚ) : ℚ := (jsRound (x * 100) : ℚ) / 100

/-- Raw financial record passed to `calculateInsuranceMetrics`
(src/services/financialDataService.js, destructuring at lines 169-180).
`none` models an absent / undefined JavaScript property, which the source
replaces by the destructuring default. -/
structure FinancialData where
  revenue : Option ℚ := none
  netIncome : Option ℚ := none
  totalAssets : Option ℚ := none
  totalStockholdersEquity : Option ℚ := none
  weightedAverageShsOut : Option ℚ := none
  sellingGeneralAndAdministrativeExpenses : Option ℚ := none
  totalDebt : Option ℚ := none
  operatingExpenses : Option ℚ := none
  investmentIncome : Option ℚ := none
  symbol : Option String := none
  calendarYear : Option Int := none
  period : Option String := none

namespace FinancialDataService

/-- Local constant `profitMargin` of `calculateInsuranceMetrics` (line 183),
before the final rounding. -/
def profitMargin (fd : FinancialData) : ℚ :=
  let revenue := fd.revenue.getD 0
  let netIncome := fd.netIncome.getD 0
  if 0 < revenue then netIncome / revenue * 100 else 0

/-- Local constant `baseExpenseRatio` (line 194). The `operatingExpenses`
destructuring default is the (already defaulted) value of
`sellingGeneralAndAdministrativeExpenses`. -/
def baseExpenseRatio (fd : FinancialData) : ℚ :=
  let revenue := fd.revenue.getD 0
  let sga := fd.sellingGeneralAndAdministrativeExpenses.getD 0
  let operatingExpenses := fd.operatingExpenses.getD sga
  if 0 < revenue then operatingExpenses / revenue * 100 else 0

/-- Local constant `expenseRatio` (line 197): `Math.min(Math.max(base, 15), 35)`. -/
def expenseRatioPre (fd : FinancialData) : ℚ :=
  min (max (baseExpenseRatio fd) 15) 35

/-- Local constant `estimatedCombinedRatio` (lines 200-226). `rand` is the
outcome of the single `Math.random()` call executed by the taken branch. -/
def estimatedCombinedRatio (fd : FinancialData) (rand : ℚ) : ℚ :=
  let company := fd.symbol.getD ""
  if company = "PGR" then 92 + rand * 6
  else if company = "TRV" then 95 + rand * 6
  else if company = "ALL" then 96 + rand * 8
  else if company = "CB" then 88 + rand * 7
  else if company = "AIG" then 98 + rand * 8
  else if 10 < profitMargin fd then 90 + rand * 8
  else if 5 < profitMargin fd then 95 + rand * 8
  else if 0 < profitMargin fd then 98 + rand * 10
  else 105 + rand * 15

/-- Local constant `lossRatio` (line 229): `Math.max(50, estimated - expenseRatio)`. -/
def lossRatioPre (fd : FinancialData) (rand : ℚ) : ℚ :=
  max 50 (estimatedCombinedRatio fd rand - expenseRatioPre fd)

/-- Local constant `combinedRatio` (line 230): recomputed as the exact sum of
the two parts before rounding. -/
def combinedRatioPre (fd : FinancialData) (rand : ℚ) : ℚ :=
  lossRatioPre fd rand + expenseRatioPre fd

/-- Derived metrics object returned by `calculateInsuranceMetrics`
(lines 237-268). -/
structure DerivedMetrics where
  revenue : ℚ
  netIncome : ℚ
  totalAssets : ℚ
  totalEquity : ℚ
  sharesOutstanding : ℚ
  profitMargin : ℚ
  roe : ℚ
  roa : ℚ
  bookValuePerShare : ℚ
  tangibleBookValue : ℚ
  debtToEquity : ℚ
  expenseRatio : ℚ
  lossRatio : ℚ
  combinedRatio : ℚ
  underwritingProfitMargin : ℚ
  investmentYield : ℚ
  floatPerShare : ℚ
  reserveRatio : ℚ
  year : Option Int
  period : Option String
  symbol : Option String

/-- Translation of `calculateInsuranceMetrics`
(src/services/financialDataService.js lines 168-269). `rand` is the value of
the one `Math.random()` draw made on the taken branch of the combined-ratio
estimation. `investmentIncome || netIncome * 0.3` uses JavaScript truthiness,
so a zero (or defaulted) investment income falls back to `netIncome * 0.3`. -/
def calculateInsuranceMetrics (fd : FinancialData) (rand : ℚ) : DerivedMetrics :=
  let revenue := fd.revenue.getD 0
  let netIncome := fd.netIncome.getD 0
  let totalAssets := fd.totalAssets.getD 0
  let totalStockholdersEquity := fd.totalStockholdersEquity.getD 0
  let weightedAverageShsOut := fd.weightedAverageShsOut.getD 1
  let totalDebt := fd.totalDebt.getD 0
  let investmentIncome := fd.investmentIncome.getD 0
  let roe := if 0 < totalStockholdersEquity then netIncome / totalStockholdersEquity * 100 else 0
  let roa := if 0 < totalAssets then netIncome / totalAssets * 100 else 0
  let bookValuePerShare :=
    if 0 < totalStockholdersEquity then totalStockholdersEquity / weightedAverageShsOut else 0
  let debtToEquity :=
    if 0 < totalStockholdersEquity then totalDebt / totalStockholdersEquity * 100 else 0
  let tangibleBookValue := bookValuePerShare
  let investmentYield :=
    if 0 < totalAssets then
      (if investmentIncome = 0 then netIncome * (3/10) else investmentIncome) / totalAssets * 100
    else 5/2
  { revenue := revenue
    netIncome := netIncome
    totalAssets := totalAssets
    totalEquity := totalStockholdersEquity
    sharesOutstanding := weightedAverageShsOut
    profitMargin := round1 (profitMargin fd)
    roe := round1 roe
    roa := round1 roa
    bookValuePerShare := round2 bookValuePerShare
    tangibleBookValue := round2 tangibleBookValue
    debtToEquity := round1 debtToEquity
    expenseRatio := round1 (expenseRatioPre fd)
    lossRatio := round1 (lossRatioPre fd rand)
    combinedRatio := round1 (combinedRatioPre fd rand)
    underwritingProfitMargin := round1 (100 - combinedRatioPre fd rand)
    investmentYield := round1 investmentYield
    floatPerShare := round2 (totalAssets * (7/10) / weightedAverageShsOut)
    reserveRatio := round2 (totalAssets * (6/10) / revenue)
    year := fd.calendarYear
    period := fd.period
    symbol := fd.symbol }

end FinancialDataService

namespace DataValidationService

/-- One benchmark band of `INDUSTRY_BENCHMARKS`
(src/services/dataValidationService.js lines 24-53). -/
structure BRange where
  min : ℚ
  max : ℚ
  description : String

/-- One metric's table of `INDUSTRY_BENCHMARKS`, with the five bands in the
object-literal insertion order used by `Object.entries`. -/
structure BenchmarkTable where
  excellent : BRange
  good : BRange
  fair : BRange
  poor : BRange
  critical : BRange

/-- Insertion-ordered entries of a benchmark table, as produced by
`Object.entries(benchmarks)`. -/
def BenchmarkTable.entries (t : BenchmarkTable) : List (String × BRange) :=
  [("excellent", t.excellent), ("good", t.good), ("fair", t.fair),
   ("poor", t.poor), ("critical", t.critical)]

/-- The `INDUSTRY_BENCHMARKS` object (lines 24-53); property access
`INDUSTRY_BENCHMARKS[metricName]` yields `none` for any other name. -/
def INDUSTRY_BENCHMARKS (metricName : String) : Option BenchmarkTable :=
  if metricName = "combinedRatio" then
    some ⟨⟨85, 95, "Top quartile performance"⟩,
          ⟨95, 100, "Above average performance"⟩,
          ⟨100, 105, "Industry average"⟩,
          ⟨105, 115, "Below average performance"⟩,
          ⟨115, 130, "Poor underwriting performance"⟩⟩
  else if metricName = "roe" then
    some ⟨⟨15, 25, "Exceptional returns"⟩,
          ⟨10, 15, "Strong returns"⟩,
          ⟨7, 10, "Adequate returns"⟩,
          ⟨3, 7, "Weak returns"⟩,
          ⟨-5, 3, "Poor/negative returns"⟩⟩
  else if metricName = "lossRatio" then
    some ⟨⟨55, 65, "Superior underwriting"⟩,
          ⟨65, 75, "Good underwriting"⟩,
          ⟨75, 85, "Average underwriting"⟩,
          ⟨85, 95, "Weak underwriting"⟩,
          ⟨95, 110, "Poor underwriting"⟩⟩
  else if metricName = "expenseRatio" then
    some ⟨⟨20, 25, "Highly efficient"⟩,
          ⟨25, 30, "Efficient operations"⟩,
          ⟨30, 35, "Average efficiency"⟩,
          ⟨35, 40, "Inefficient operations"⟩,
          ⟨40, 50, "Very inefficient"⟩⟩
  else none

/-- Translation of `calculatePercentile` (lines 95-105): compares the value
against each band's `max` in ascending order of `max`. -/
def calculatePercentile (metricName : String) (value : ℚ) : ℚ :=
  match INDUSTRY_BENCHMARKS metricName with
  | none => 50
  | some benchmarks =>
    if value ≤ benchmarks.excellent.max then 90
    else if value ≤ benchmarks.good.max then 75
    else if value ≤ benchmarks.fair.max then 50
    else if value ≤ benchmarks.poor.max then 25
    else 10

/-- Result object of `validateMetric`. A `none` percentile models an absent
property (the outlier and unknown branches return no percentile). -/
structure MetricValidation where
  rating : String
  message : String
  benchmark : Option BRange
  percentile : Option ℚ

/-- Translation of `validateMetric` (lines 61-87). The `value` argument is
`none` when the JavaScript value is not a number. -/
def validateMetric (metricName : String) (value : Option ℚ) : MetricValidation :=
  match INDUSTRY_BENCHMARKS metricName, value with
  | none, _ => ⟨"unknown", "Unable to validate metric", none, none⟩
  | some _, none => ⟨"unknown", "Unable to validate metric", none, none⟩
  | some benchmarks, some v =>
    match benchmarks.entries.find? (fun e => decide (e.2.min ≤ v) && decide (v ≤ e.2.max)) with
    | some e => ⟨e.1, e.2.description, some e.2, some (calculatePercentile metricName v)⟩
    | none => ⟨"outlier", "Value outside typical industry range", none, none⟩

/-- Score table of `validateCompanyData` (line 147):
`{ excellent: 100, good: 80, fair: 60, poor: 40, critical: 20, outlier: 10 }`,
with `|| 0` for any other rating. -/
def scoreMap (rating : String) : ℤ :=
  if rating = "excellent" then 100
  else if rating = "good" then 80
  else if rating = "fair" then 60
  else if rating = "poor" then 40
  else if rating = "critical" then 20
  else if rating = "outlier" then 10
  else 0

/-- The `currentMetrics` object consumed by `validateCompanyData`; each core
metric is `none` when the property is missing or not a number. -/
structure CoreMetrics where
  combinedRatio : Option ℚ := none
  roe : Option ℚ := none
  lossRatio : Option ℚ := none
  expenseRatio : Option ℚ := none

/-- Dynamic property access `metrics[metricName]` for the core metric names. -/
def CoreMetrics.lookup (m : CoreMetrics) (metricName : String) : Option ℚ :=
  if metricName = "combinedRatio" then m.combinedRatio
  else if metricName = "roe" then m.roe
  else if metricName = "lossRatio" then m.lossRatio
  else if metricName = "expenseRatio" then m.expenseRatio
  else none

/-- The `financialData` argument of `validateCompanyData`; only its
`currentMetrics` property is consulted. -/
structure FinancialPayload where
  currentMetrics : Option CoreMetrics := none

/-- A `validations` array entry of the validation report. -/
structure ValidationEntry where
  metric : String
  value : ℚ
  rating : String
  message : String
  percentile : Option ℚ

/-- A `warnings` array entry. -/
structure WarningEntry where
  type : String
  message : String

/-- A `recommendations` array entry. -/
structure RecommendationEntry where
  type : String
  message : String

/-- A `sources` array entry. -/
structure SourceEntry where
  name : String
  status : String

/-- The validation report built by `validateCompanyData` (lines 114-123);
the timestamp field is omitted from the model. -/
structure ValidationReport where
  ticker : String
  overallScore : ℤ
  dataQuality : String
  validations : List ValidationEntry
  warnings : List WarningEntry
  recommendations : List RecommendationEntry
  sources : List SourceEntry

/-- Outcome of the `fetchSECFilings` lookup as observed by
`validateCompanyData`: a successful result object, a result object carrying
an `error` field, or a thrown error caught by the surrounding try/catch. -/
inductive SECOutcome where
  | verified (name : String) (cik : String) (filingCount : ℤ)
  | errorResult (message : String)
  | threw (message : String)

/-- Outcome of the `fetchEconomicIndicators` lookup: the indicators object
(with optional UNRATE and FEDFUNDS values) or a thrown error. -/
inductive EconOutcome where
  | indicators (unrate : Option ℚ) (fedfunds : Option ℚ)
  | threw (message : String)

/-- Accumulator of the core-metric loop of `validateCompanyData`
(lines 136-156). -/
structure LoopAcc where
  validations : List ValidationEntry
  warnings : List WarningEntry
  totalScore : ℤ
  validMetricsCount : ℕ

/-- One iteration of the core-metric loop (lines 136-156). -/
def scoreStep (metrics : CoreMetrics) (acc : LoopAcc) (metricName : String) : LoopAcc :=
  match metrics.lookup metricName with
  | some v =>
    let validation := validateMetric metricName (some v)
    { acc with
      validations := acc.validations ++
        [⟨metricName, v, validation.rating, validation.message, validation.percentile⟩]
      totalScore := acc.totalScore + scoreMap validation.rating
      validMetricsCount := acc.validMetricsCount + 1 }
  | none =>
    { acc with
      warnings := acc.warnings ++
        [⟨"missing_data", "Missing or invalid " ++ metricName ++ " data"⟩] }

/-- The fixed core metric subset (line 132). -/
def coreMetricNames : List String :=
  ["combinedRatio", "roe", "lossRatio", "expenseRatio"]

/-- Sources contributed by the SEC cross-validation step (lines 159-183):
a verified `SEC EDGAR` entry on success, nothing on failure. -/
def secSources : SECOutcome → List SourceEntry
  | .verified _ _ _ => [⟨"SEC EDGAR", "verified"⟩]
  | .errorResult _ => []
  | .threw _ => []

/-- Warnings contributed by the SEC cross-validation step: an error field of
the result yields a `sec_validation` warning, a caught throw a `sec_error`. -/
def secWarnings : SECOutcome → List WarningEntry
  | .verified _ _ _ => []
  | .errorResult e => [⟨"sec_validation", "SEC verification failed: " ++ e⟩]
  | .threw e => [⟨"sec_error", "SEC API error: " ++ e⟩]

/-- Score bonus of the SEC step (line 171): `totalScore += 10` on success. -/
def secBonus : SECOutcome → ℤ
  | .verified _ _ _ => 10
  | .errorResult _ => 0
  | .threw _ => 0

/-- Sources contributed by the economic-context step (lines 186-218). -/
def econSources : EconOutcome → List SourceEntry
  | .indicators _ _ => [⟨"FRED Economic Data", "available"⟩]
  | .threw _ => []

/-- Warnings contributed by the economic-context step. -/
def econWarnings : EconOutcome → List WarningEntry
  | .indicators _ _ => []
  | .threw e => [⟨"economic_data", "Economic data unavailable: " ++ e⟩]

/-- Recommendations contributed by the economic-context step (lines 195-211);
the JavaScript truthiness guard `unemployment && unemployment > 6` is
equivalent to the strict comparison for a present numeric value. -/
def econRecommendations : EconOutcome → List RecommendationEntry
  | .indicators unrate fedfunds =>
    (match unrate with
     | some u => if 6 < u then
         [⟨"economic_context",
           "High unemployment (" ++ toString u ++ "%) may impact insurance demand and claims"⟩]
       else []
     | none => []) ++
    (match fedfunds with
     | some f => if 4 < f then
         [⟨"economic_context",
           "High interest rates (" ++ toString f ++ "%) may benefit investment income"⟩]
       else []
     | none => [])
  | .threw _ => []

/-- The overall score computation (lines 220-223):
`Math.round(totalScore / validMetricsCount)` when any metric was scored,
otherwise the initial 0. -/
def overallScoreOf (acc : LoopAcc) (bonus : ℤ) : ℤ :=
  if 0 < acc.validMetricsCount then
    jsRound (((acc.totalScore + bonus : ℤ) : ℚ) / (acc.validMetricsCount : ℚ))
  else 0

/-- The data-quality tiers (lines 225-233). -/
def dataQualityOf (score : ℤ) : String :=
  if 85 ≤ score then "excellent"
  else if 70 ≤ score then "good"
  else if 50 ≤ score then "fair"
  else "poor"

/-- Body of `validateCompanyData` (lines 125-250) once `currentMetrics` is
known to be present, as a pure function of the two lookup outcomes. -/
def buildReport (ticker : String) (metrics : CoreMetrics)
    (sec : SECOutcome) (econ : EconOutcome) : ValidationReport :=
  let acc := coreMetricNames.foldl (scoreStep metrics) ⟨[], [], 0, 0⟩
  let overallScore := overallScoreOf acc (secBonus sec)
  let warnings := acc.warnings ++ secWarnings sec ++ econWarnings econ
  let recommendations :=
    econRecommendations econ ++
    (if 2 < warnings.length then
      [⟨"data_quality",
        "Multiple data quality issues detected. Consider using alternative data sources."⟩]
     else []) ++
    (if acc.validMetricsCount < coreMetricNames.length then
      [⟨"completeness", "Some key metrics are missing. Data may be incomplete."⟩]
     else [])
  { ticker := ticker
    overallScore := overallScore
    dataQuality := dataQualityOf overallScore
    validations := acc.validations
    warnings := warnings
    recommendations := recommendations
    sources := secSources sec ++ econSources econ }

/-- The throwing prefix of `validateCompanyData`: reading `currentMetrics` of
a null argument throws a TypeError, and a missing metrics object throws the
explicit error of line 128. Both are caught by the outer catch. -/
def validateCompanyDataBody (ticker : String) (financialData : Option FinancialPayload)
    (sec : SECOutcome) (econ : EconOutcome) : Except String ValidationReport :=
  match financialData with
  | none => .error "Cannot read properties of null (reading currentMetrics)"
  | some payload =>
    match payload.currentMetrics with
    | none => .error "No financial metrics available for validation"
    | some metrics => .ok (buildReport ticker metrics sec econ)

/-- Translation of the exported `validateCompanyData` (lines 113-260): any
error thrown inside the body is caught; the initial report is returned with a
`validation_error` warning and `dataQuality` set to `error`. -/
def validateCompanyData (ticker : String) (financialData : Option FinancialPayload)
    (sec : SECOutcome) (econ : EconOutcome) : ValidationReport :=
  match validateCompanyDataBody ticker financialData sec econ with
  | .ok r => r
  | .error e =>
    { ticker := ticker
      overallScore := 0
      dataQuality := "error"
      validations := []
      warnings := [⟨"validation_error", "Validation process failed: " ++ e⟩]
      recommendations := []
      sources := [] }

end DataValidationService

namespace IndustryBenchmarkService

/-- One band of `INDUSTRY_BENCHMARKS_2024` (src/unnamed/part_002 lines 23-98):
`{ min, max, percentile }`. -/
structure PRange where
  min : ℚ
  max : ℚ
  percentile : ℚ

/-- One size class's table of five bands, in object-literal insertion order. -/
structure SizeBands where
  excellent : PRange
  good : PRange
  average : PRange
  poor : PRange
  critical : PRange

/-- Insertion-ordered entries of a size-class table, as iterated by
`Object.entries(benchmarks)`. -/
def SizeBands.entries (b : SizeBands) : List (String × PRange) :=
  [("excellent", b.excellent), ("good", b.good), ("average", b.average),
   ("poor", b.poor), ("critical", b.critical)]

/-- Nested property access `INDUSTRY_BENCHMARKS_2024[metric]?.[companySize]`
over the tables of part_002 lines 23-98. -/
def INDUSTRY_BENCHMARKS_2024 (metric : String) (companySize : String) : Option SizeBands :=
  if metric = "combinedRatio" then
    if companySize = "large" then
      some ⟨⟨88, 95, 90⟩, ⟨95, 100, 75⟩, ⟨100, 105, 50⟩, ⟨105, 110, 25⟩, ⟨110, 120, 10⟩⟩
    else if companySize = "medium" then
      some ⟨⟨90, 97, 90⟩, ⟨97, 102, 75⟩, ⟨102, 107, 50⟩, ⟨107, 115, 25⟩, ⟨115, 125, 10⟩⟩
    else if companySize = "small" then
      some ⟨⟨92, 99, 90⟩, ⟨99, 105, 75⟩, ⟨105, 110, 50⟩, ⟨110, 118, 25⟩, ⟨118, 130, 10⟩⟩
    else none
  else if metric = "roe" then
    if companySize = "large" then
      some ⟨⟨15, 25, 90⟩, ⟨12, 15, 75⟩, ⟨8, 12, 50⟩, ⟨5, 8, 25⟩, ⟨0, 5, 10⟩⟩
    else if companySize = "medium" then
      some ⟨⟨14, 22, 90⟩, ⟨11, 14, 75⟩, ⟨7, 11, 50⟩, ⟨4, 7, 25⟩, ⟨-2, 4, 10⟩⟩
    else if companySize = "small" then
      some ⟨⟨13, 20, 90⟩, ⟨10, 13, 75⟩, ⟨6, 10, 50⟩, ⟨3, 6, 25⟩, ⟨-5, 3, 10⟩⟩
    else none
  else if metric = "lossRatio" then
    if companySize = "large" then
      some ⟨⟨58, 68, 90⟩, ⟨68, 75, 75⟩, ⟨75, 82, 50⟩, ⟨82, 90, 25⟩, ⟨90, 100, 10⟩⟩
    else if companySize = "medium" then
      some ⟨⟨60, 70, 90⟩, ⟨70, 77, 75⟩, ⟨77, 85, 50⟩, ⟨85, 92, 25⟩, ⟨92, 105, 10⟩⟩
    else if companySize = "small" then
      some ⟨⟨62, 72, 90⟩, ⟨72, 80, 75⟩, ⟨80, 88, 50⟩, ⟨88, 95, 25⟩, ⟨95, 110, 10⟩⟩
    else none
  else none

/-- Translation of `getCompanySize` (part_002 lines 139-145). The JavaScript
guard `!premiumVolume || typeof premiumVolume !== 'number'` returns medium
for a missing or non-numeric argument and also for the falsy number 0. -/
def getCompanySize (premiumVolume : Option ℚ) : String :=
  match premiumVolume with
  | none => "medium"
  | some q =>
    if q = 0 then "medium"
    else if 10000 ≤ q then "large"
    else if 1000 ≤ q then "medium"
    else "small"

/-- Amended-claim rendering of the size classifier, for comparison with the
source translation: at least 10000 is large, at least 1000 and below 10000 is
medium, every other nonzero numeric volume is small, and zero (a falsy
number) as well as non-numeric input defaults to medium. -/
def claimCompanySize (premiumVolume : Option ℚ) : String :=
  match premiumVolume with
  | none => "medium"
  | some q =>
    if 10000 ≤ q then "large"
    else if 1000 ≤ q ∧ q < 10000 then "medium"
    else if q ≠ 0 then "small"
    else "medium"

/-- The `lowerIsBetter` membership test of `calculateIndustryPercentile`
(part_002 line 175). -/
def lowerIsBetterMetric (metric : String) : Bool :=
  metric = "combinedRatio" || metric = "lossRatio" || metric = "expenseRatio"

/-- Band search and outlier handling of `calculateIndustryPercentile`
(part_002 lines 177-192), after the benchmark table has been fetched. -/
def percentileCore (b : SizeBands) (lowerIsBetter : Bool) (v : ℚ) : ℚ :=
  match b.entries.find? (fun e => decide (e.2.min ≤ v) && decide (v ≤ e.2.max)) with
  | some e => e.2.percentile
  | none =>
    if lowerIsBetter then
      if v < b.excellent.min then 95
      else if b.critical.max < v then 5
      else 50
    else
      if b.excellent.max < v then 95
      else if v < b.critical.min then 5
      else 50

/-- Translation of `calculateIndustryPercentile` (part_002 lines 170-193).
The `value` argument is `none` when the JavaScript value is not a number. -/
def calculateIndustryPercentile (metric : String) (value : Option ℚ)
    (companySize : String := "large") : ℚ :=
  match INDUSTRY_BENCHMARKS_2024 metric companySize, value with
  | none, _ => 50
  | some _, none => 50
  | some b, some v => percentileCore b (lowerIsBetterMetric metric) v

/-- Rating assignment of the metric loop in `getBenchmarkAnalysis`
(part_002 lines 228-234): first containing band wins, default `average`. -/
def benchmarkRating (b : SizeBands) (v : ℚ) : String :=
  match b.entries.find? (fun e => decide (e.2.min ≤ v) && decide (v ≤ e.2.max)) with
  | some e => e.1
  | none => "average"

/-- Modelled from the claim text for comparison: the first band in canonical
order whose closed interval contains the value yields that band's percentile;
a value outside every band rates 95 beyond the excellent band on the
favorable side and 5 beyond the critical band on the unfavorable side. -/
def claimPercentile (b : SizeBands) (lowerIsBetter : Bool) (v : ℚ) : ℚ :=
  match b.entries.find? (fun e => decide (e.2.min ≤ v) && decide (v ≤ e.2.max)) with
  | some e => e.2.percentile
  | none =>
    if (if lowerIsBetter then v < b.excellent.min else b.excellent.max < v) then 95 else 5

end IndustryBenchmarkService

namespace EnhancedDataService

/-- Cache duration constant of enhancedDataService.js (line 27), in
milliseconds. -/
def CACHE_DURATION : ℤ := 60 * 60 * 1000

/-- The backing `Map` of the enhanced data service cache: association list of
key, stored value and absolute expiry timestamp. A `Map.set` on an existing
key replaces the entry in place, which an association-list update models. -/
structure CacheState (α : Type) where
  entries : List (String × α × ℤ) := []

/-- Lookup in the backing map (`cache.get(key)` of the `Map`). -/
def CacheState.lookup {α : Type} (s : CacheState α) (key : String) : Option (α × ℤ) :=
  (s.entries.find? (fun e => e.1 = key)).map (·.2)

/-- Translation of `cacheUtils.set` (enhancedDataService.js lines 34-47):
store the value with expiry `now + ttl`, then, if the map holds more than 100
entries, delete every entry whose expiry is strictly in the past. -/
def cacheSet {α : Type} (now : ℤ) (key : String) (value : α) (ttl : ℤ)
    (s : CacheState α) : CacheState α :=
  let expiry := now + ttl
  let entries := (s.entries.filter (fun e => e.1 ≠ key)) ++ [(key, value, expiry)]
  if 100 < entries.length then
    ⟨entries.filter (fun e => ¬ e.2.2 < now)⟩
  else
    ⟨entries⟩

/-- Translation of `cacheUtils.get` (enhancedDataService.js lines 49-59):
a missing key is a miss; `Date.now() > item.expiry` deletes the entry and is
a miss; otherwise the stored value is returned. -/
def cacheGet {α : Type} (now : ℤ) (key : String) (s : CacheState α) :
    Option α × CacheState α :=
  match s.lookup key with
  | none => (none, s)
  | some (v, expiry) =>
    if expiry < now then
      (none, ⟨s.entries.filter (fun e => e.1 ≠ key)⟩)
    else
      (some v, s)

end EnhancedDataService

namespace FinancialDataService

/-- Settled outcome of a producer promise: resolution value or rejection
message. The resolution payload is left abstract as a string. -/
inductive Outcome where
  | success (value : String)
  | failure (message : String)

/-- State of the request-deduplication mechanism of
`fetchCompanyFinancials` (financialDataService.js lines 281-363): the
`pendingRequests` map from cache key to the in-flight promise (identified by
a number), a fresh-promise counter, the log of producer invocations, and the
settled results by promise identifier. -/
structure CoordState where
  pendingRequests : List (String × ℕ) := []
  nextId : ℕ := 0
  invocations : List (String × ℕ) := []
  settledResults : List (ℕ × Outcome) := []

/-- Result of one call: the promise handle returned to the caller, whether
the producer was invoked by this call, and the new state. -/
structure CallResult where
  handle : ℕ
  invokedProducer : Bool
  state : CoordState

/-- Translation of the deduplicated call path of `fetchCompanyFinancials`
(lines 281-363, after a cache miss): if `pendingRequests` already holds the
key, the stored promise is returned unchanged; otherwise the producer is
invoked, its fresh promise is registered under the key, and that promise is
returned. -/
def dedupCall (s : CoordState) (key : String) : CallResult :=
  match (s.pendingRequests.find? (fun e => e.1 = key)).map (·.2) with
  | some i => ⟨i, false, s⟩
  | none =>
    let i := s.nextId
    ⟨i, true,
      { s with
        nextId := i + 1
        pendingRequests := (key, i) :: s.pendingRequests
        invocations := (key, i) :: s.invocations }⟩

/-- Translation of producer settlement: the `finally` block (lines 354-357)
runs `pendingRequests.delete(cacheKey)` whether the producer resolved or
rejected, and the promise settles with its outcome. -/
def dedupSettle (s : CoordState) (key : String) (i : ℕ) (o : Outcome) : CoordState :=
  { s with
    pendingRequests := s.pendingRequests.filter (fun e => e.1 ≠ key)
    settledResults := (i, o) :: s.settledResults }

/-- Success payload of `fetchCompanyFinancials` as consumed by the batch
fetch; only the fields inspected by the claims are modelled. -/
structure CompanyFinancials where
  ticker : String
  currentMetrics : Option DerivedMetrics

/-- One element of the array returned by `fetchMultipleCompanyFinancials`:
either the per-ticker success object, or the catch-handler object
`{ ticker, error, currentMetrics: null }`. -/
structure FetchResultEntry where
  ticker : String
  error : Option String
  currentMetrics : Option DerivedMetrics

/-- The per-ticker mapping of `fetchMultipleCompanyFinancials` (lines
373-379): a rejected fetch is converted by `.catch` into an error entry. -/
def fetchEntry (fetchOutcome : String → Except String CompanyFinancials)
    (ticker : String) : FetchResultEntry :=
  match fetchOutcome ticker with
  | .ok r => ⟨r.ticker, none, r.currentMetrics⟩
  | .error e => ⟨ticker, some e, none⟩

/-- Translation of `fetchMultipleCompanyFinancials` (lines 371-385):
`Promise.all` over one independent, individually caught fetch per ticker.
`fetchOutcome` gives the settled outcome of each per-ticker fetch. -/
def fetchMultipleCompanyFinancials
    (fetchOutcome : String → Except String CompanyFinancials)
    (tickers : List String) : List FetchResultEntry :=
  tickers.map (fetchEntry fetchOutcome)

end FinancialDataService

/-- Concrete input record used when examining claim C1: revenue 10000,
net income 1100 (profit margin 11), SG&A expenses 1504 (base expense
ratio 15.04), no ticker symbol. -/
def fdC1 : FinancialData :=
  { revenue := some 10000
    netIncome := some 1100
    sellingGeneralAndAdministrativeExpenses := some 1504 }

/-- Concrete core metrics, every one rated excellent by the validation
benchmarks, used when examining claim C2. -/
def metricsC2 : DataValidationService.CoreMetrics :=
  { combinedRatio := some 90, roe := some 20, lossRatio := some 60, expenseRatio := some 22 }

/-- Concrete per-ticker fetch outcomes for the batch scenario of claim C7:
the middle ticker fails upstream, the other two succeed. -/
def batchOutcome : String → Except String FinancialDataService.CompanyFinancials :=
  fun t =>
    if t = "ZZZZ_INVALID" then
      .error "Failed to fetch data for ZZZZ_INVALID: No financial data available for ZZZZ_INVALID"
    else .ok ⟨t, none⟩

open FinancialDataService DataValidationService IndustryBenchmarkService EnhancedDataService

/-- jsRound agrees with the mathematical floor of x + 1/2. -/
theorem jsRound_eq_floor (x : ℚ) : jsRound x = ⌊x + 1/2⌋ :=
  le_antisymm
    (Int.le_floor.mpr (Rat.le_floor.mp le_rfl))
    (Rat.le_floor.mpr (Int.floor_le _))

/-- jsRound is monotone. -/
theorem jsRound_le_jsRound {x y : ℚ} (h : x ≤ y) : jsRound x ≤ jsRound y := by
  rw [jsRound_eq_floor, jsRound_eq_floor]
  exact Int.floor_le_floor (by linarith)

/-- round1 is monotone. -/
theorem round1_le_round1 {x y : ℚ} (h : x ≤ y) : round1 x ≤ round1 y := by
  have hz : jsRound (x * 10) ≤ jsRound (y * 10) := jsRound_le_jsRound (by linarith)
  have hq : ((jsRound (x * 10) : ℤ) : ℚ) ≤ ((jsRound (y * 10) : ℤ) : ℚ) := Int.cast_le.mpr hz
  unfold round1
  linarith

/-- Rounding to one decimal moves a value by at most 1/20. -/
theorem round1_err (x : ℚ) : |round1 x - x| ≤ 1/20 := by
  have heq := jsRound_eq_floor (x * 10)
  have h1 : ((jsRound (x * 10) : ℤ) : ℚ) ≤ x * 10 + 1/2 := by
    rw [heq]; exact Int.floor_le _
  have h2 : x * 10 + 1/2 < ((jsRound (x * 10) : ℤ) : ℚ) + 1 := by
    rw [heq]; exact Int.lt_floor_add_one _
  unfold round1
  rw [abs_le]
  constructor <;> linarith

/-- Rounding the summands separately differs from rounding the sum by at
most one rounding step of 1/10. -/
theorem round1_add_bound (a b : ℚ) : |round1 (a + b) - (round1 a + round1 b)| ≤ 1/10 := by
  have ea := round1_err a
  have eb := round1_err b
  have eab := round1_err (a + b)
  rw [abs_le] at ea eb eab
  have hd : round1 (a + b) - (round1 a + round1 b) =
      ((jsRound ((a + b) * 10) - jsRound (a * 10) - jsRound (b * 10) : ℤ) : ℚ) / 10 := by
    unfold round1
    push_cast
    ring
  have h32 : |((jsRound ((a + b) * 10) - jsRound (a * 10) - jsRound (b * 10) : ℤ) : ℚ)| ≤ 3/2 := by
    rw [abs_le]
    constructor <;> linarith [ea.1, ea.2, eb.1, eb.2, eab.1, eab.2, hd]
  have hint : |(jsRound ((a + b) * 10) - jsRound (a * 10) - jsRound (b * 10) : ℤ)| ≤ 1 := by
    have : ((|jsRound ((a + b) * 10) - jsRound (a * 10) - jsRound (b * 10)| : ℤ) : ℚ) ≤ 3/2 := by
      rw [Int.cast_abs]
      exact h32
    have h2 : ((|jsRound ((a + b) * 10) - jsRound (a * 10) - jsRound (b * 10)| : ℤ) : ℚ) < 2 :=
      lt_of_le_of_lt this (by norm_num)
    have h3 : (|jsRound ((a + b) * 10) - jsRound (a * 10) - jsRound (b * 10)| : ℤ) < 2 := by
      exact_mod_cast h2
    omega
  rw [hd, abs_div]
  have : |((jsRound ((a + b) * 10) - jsRound (a * 10) - jsRound (b * 10) : ℤ) : ℚ)| ≤ 1 := by
    rw [← Int.cast_abs]
    exact_mod_cast hint
  rw [abs_of_pos (by norm_num : (0:ℚ) < 10)]
  linarith

/-- Rounding 100 minus a value differs from 100 minus the rounded value by
at most 1/10. -/
theorem round1_complement_bound (c : ℚ) :
    |round1 (100 - c) - (100 - round1 c)| ≤ 1/10 := by
  have e1 := round1_err (100 - c)
  have e2 := round1_err c
  rw [abs_le] at e1 e2
  rw [abs_le]
  constructor <;> linarith

/-- C6: for every input record, including zero or negative revenue and
operating expenses of any magnitude, the expenseRatio field of the returned
DerivedMetrics lies in the closed interval [15, 35]. -/
theorem C6_expenseRatio_in_range (fd : FinancialData) (rand : ℚ) :
    15 ≤ (calculateInsuranceMetrics fd rand).expenseRatio ∧
    (calculateInsuranceMetrics fd rand).expenseRatio ≤ 35 := by
  have hfield : (calculateInsuranceMetrics fd rand).expenseRatio
      = round1 (expenseRatioPre fd) := rfl
  have hlo : (15:ℚ) ≤ expenseRatioPre fd :=
    le_min (le_max_right _ _) (by norm_num)
  have hhi : expenseRatioPre fd ≤ 35 := min_le_right _ _
  rw [hfield]
  constructor
  · have h15 : round1 15 = 15 := by
      unfold round1
      rw [jsRound_eq_floor]
      norm_num
    calc (15:ℚ) = round1 15 := h15.symm
      _ ≤ round1 (expenseRatioPre fd) := round1_le_round1 hlo
  · have h35 : round1 35 = 35 := by
      unfold round1
      rw [jsRound_eq_floor]
      norm_num
    calc round1 (expenseRatioPre fd) ≤ round1 35 := round1_le_round1 hhi
      _ = 35 := h35

/-- C9 counterexample: the company size classifier maps premium volume 0 to
medium, not to small as the claim states for every other numeric volume. -/
theorem C9_counterexample :
    getCompanySize (some 0) = "medium" ∧ getCompanySize (some 0) ≠ "small" := by
  decide

/-- C9 amended: at least 10000 is large, at least 1000 and below 10000 is
medium, every other nonzero numeric volume is small, and zero (falsy) or
non-numeric input defaults to medium. -/
theorem C9_amended (premiumVolume : Option ℚ) :
    getCompanySize premiumVolume = claimCompanySize premiumVolume := by
  cases premiumVolume with
  | none => rfl
  | some q =>
    simp only [getCompanySize, claimCompanySize]
    rcases eq_or_ne q 0 with h0 | h0
    · subst h0
      norm_num
    · rcases le_or_lt 10000 q with h1 | h1
      · rw [if_neg h0, if_pos h1, if_pos h1]
      · rcases le_or_lt 1000 q with h2 | h2
        · rw [if_neg h0, if_neg (not_le.mpr h1), if_pos h2, if_neg (not_le.mpr h1),
            if_pos ⟨h2, h1⟩]
        · rw [if_neg h0, if_neg (not_le.mpr h1), if_neg (not_le.mpr h2),
            if_neg (not_le.mpr h1), if_neg (fun hc => absurd hc.1 (not_le.mpr h2)),
            if_pos h0]

/-- C10: every roe value strictly above 25 falls outside every roe benchmark
band, so the per-metric validator rates it outlier (worth 10 score points)
and the percentile helper, comparing only against each band max in ascending
order, returns 10 — below the 50 a merely fair roe receives. -/
theorem C10_roe_outlier (v : ℚ) (h : 25 < v) :
    (validateMetric "roe" (some v)).rating = "outlier" ∧
    scoreMap "outlier" = 10 ∧
    calculatePercentile "roe" v = 10 ∧
    calculatePercentile "roe" 8 = 90 := by
  have h25 : decide (v ≤ 25) = false := decide_eq_false (by linarith)
  have h15 : decide (v ≤ 15) = false := decide_eq_false (by linarith)
  have h10 : decide (v ≤ 10) = false := decide_eq_false (by linarith)
  have h7 : decide (v ≤ 7) = false := decide_eq_false (by linarith)
  have h3 : decide (v ≤ 3) = false := decide_eq_false (by linarith)
  have hp25 : ¬ v ≤ 25 := by linarith
  have hp15 : ¬ v ≤ 15 := by linarith
  have hp10 : ¬ v ≤ 10 := by linarith
  have hp7 : ¬ v ≤ 7 := by linarith
  refine ⟨?_, by decide, ?_, by decide⟩
  · simp [validateMetric, INDUSTRY_BENCHMARKS, BenchmarkTable.entries, List.find?,
      h25, h15, h10, h7, h3]
  · simp [calculatePercentile, INDUSTRY_BENCHMARKS, hp25, hp15, hp10, hp7]

/-- C10 witness at roe 30. -/
theorem C10_witness :
    (25:ℚ) < 30 ∧
    ((validateMetric "roe" (some 30)).rating = "outlier" ∧
     scoreMap "outlier" = 10 ∧
     calculatePercentile "roe" 30 = 10 ∧
     calculatePercentile "roe" 8 = 90) :=
  ⟨by norm_num, C10_roe_outlier 30 (by norm_num)⟩

/-- C4 counterexample: a value set at time 0 with TTL 100 is still returned
by a get at time 100, although time 100 is not strictly before the expiry
0 + 100 — the source misses only when now is strictly past the expiry. -/
theorem C4_counterexample :
    (cacheGet 100 "k" (cacheSet 0 "k" "v" 100 ⟨[]⟩)).1 = some "v" ∧
    ¬ ((100:ℤ) < 0 + 100) := by
  constructor
  · rfl
  · decide

/-- C4 amended: get returns the stored value exactly when now is less than
or equal to the expiry (set time plus TTL); strictly after the expiry it
deletes the entry and returns the null sentinel; a missing key is a miss;
it never throws (the model is a total function). -/
theorem C4_amended {α : Type} (now : ℤ) (key : String) (s : CacheState α) :
    (∀ v expiry, s.lookup key = some (v, expiry) →
       (now ≤ expiry → cacheGet now key s = (some v, s)) ∧
       (expiry < now →
         cacheGet now key s = (none, ⟨s.entries.filter (fun e => e.1 ≠ key)⟩))) ∧
    (s.lookup key = none → cacheGet now key s = (none, s)) ∧
    (cacheGet 0 "k" (cacheSet 0 "k" "v" 100 ⟨[]⟩)).1 = some "v" ∧
    (cacheGet 150 "k" (cacheSet 0 "k" "v" 100 ⟨[]⟩)).1 = none := by
  refine ⟨?_, ?_, rfl, rfl⟩
  · intro v expiry hl
    have hred : cacheGet now key s =
        if expiry < now then (none, ⟨s.entries.filter (fun e => e.1 ≠ key)⟩)
        else (some v, s) := by
      unfold cacheGet
      rw [hl]
    constructor
    · intro h
      rw [hred, if_neg (not_lt.mpr h)]
    · intro h
      rw [hred, if_pos h]
  · intro hl
    unfold cacheGet
    rw [hl]

/-- C4 witness: the amended theorem applied to the concrete one-entry cache,
once at the expiry instant (hit) and once past it (miss with deletion). -/
theorem C4_witness :
    cacheGet 100 "k" (cacheSet 0 "k" "v" 100 ⟨[]⟩) =
      (some "v", cacheSet 0 "k" "v" 100 ⟨[]⟩) ∧
    (cacheGet 200 "k" (cacheSet 0 "k" "v" 100 ⟨[]⟩)).1 = none := by
  have h100 := C4_amended (α := String) 100 "k" (cacheSet 0 "k" "v" 100 ⟨[]⟩)
  have h200 := C4_amended (α := String) 200 "k" (cacheSet 0 "k" "v" 100 ⟨[]⟩)
  constructor
  · exact (h100.1 "v" 100 rfl).1 (by decide)
  · rw [(h200.1 "v" 100 rfl).2 (by decide)]

/-- C3: while a producer promise for a key is registered, a further call
with the same key returns the same pending promise without invoking the
producer or changing the state; settlement (resolution or rejection alike)
removes the registration and records the outcome every holder of the handle
observes; a call after settlement invokes the producer afresh, registering a
new promise. -/
theorem C3_coordinator (s : CoordState) (k : String) (i : ℕ) (o : Outcome) :
    ((s.pendingRequests.find? (fun e => e.1 = k)).map (·.2) = some i →
       dedupCall s k = ⟨i, false, s⟩) ∧
    ((dedupSettle s k i o).pendingRequests.find? (fun e => e.1 = k) = none) ∧
    (((dedupSettle s k i o).settledResults.find? (fun e => e.1 = i)).map (·.2) = some o) ∧
    (dedupCall (dedupSettle s k i o) k =
      ⟨s.nextId, true,
        { pendingRequests := (k, s.nextId) :: (dedupSettle s k i o).pendingRequests
          nextId := s.nextId + 1
          invocations := (k, s.nextId) :: s.invocations
          settledResults := (i, o) :: s.settledResults }⟩) := by
  have hnone : (dedupSettle s k i o).pendingRequests.find? (fun e => e.1 = k) = none := by
    rw [List.find?_eq_none]
    intro x hx
    rw [dedupSettle] at hx
    simp only [List.mem_filter, decide_eq_true_eq] at hx
    simp [hx.2]
  refine ⟨?_, hnone, ?_, ?_⟩
  · intro h
    unfold dedupCall
    rw [h]
  · simp [dedupSettle, List.find?_cons_of_pos]
  · unfold dedupCall
    rw [hnone]
    rfl

/-- C3 witness: a concrete trace — after one call registered promise 0 for
the key, a second call reuses it without invoking the producer; settling
with a rejection clears the registration and a further call starts a fresh
producer invocation. -/
theorem C3_witness :
    dedupCall ⟨[("financials_TRV", 0)], 1, [("financials_TRV", 0)], []⟩ "financials_TRV" =
      ⟨0, false, ⟨[("financials_TRV", 0)], 1, [("financials_TRV", 0)], []⟩⟩ ∧
    ((dedupSettle ⟨[("financials_TRV", 0)], 1, [("financials_TRV", 0)], []⟩
        "financials_TRV" 0 (.failure "boom")).pendingRequests.find?
        (fun e => e.1 = "financials_TRV") = none) ∧
    (dedupCall (dedupSettle ⟨[("financials_TRV", 0)], 1, [("financials_TRV", 0)], []⟩
        "financials_TRV" 0 (.failure "boom")) "financials_TRV").invokedProducer = true := by
  have h := C3_coordinator ⟨[("financials_TRV", 0)], 1, [("financials_TRV", 0)], []⟩
    "financials_TRV" 0 (.failure "boom")
  refine ⟨h.1 rfl, h.2.1, ?_⟩
  rw [h.2.2.2]

/-- C7: the multi-company fetch returns exactly one element per requested
ticker; element i is determined solely by the outcome of ticker i, so one
ticker's failure cannot cancel or fail the others; a failing ticker
contributes the catch-handler object with the ticker, the error message and
a null currentMetrics. -/
theorem C7_batch (fetchOutcome : String → Except String CompanyFinancials)
    (tickers : List String) :
    (fetchMultipleCompanyFinancials fetchOutcome tickers).length = tickers.length ∧
    (∀ i : ℕ, (fetchMultipleCompanyFinancials fetchOutcome tickers)[i]? =
      (tickers[i]?).map (fetchEntry fetchOutcome)) ∧
    (∀ (i : ℕ) (t e : String), tickers[i]? = some t → fetchOutcome t = .error e →
      (fetchMultipleCompanyFinancials fetchOutcome tickers)[i]? =
        some ⟨t, some e, none⟩) := by
  refine ⟨?_, ?_, ?_⟩
  · show (tickers.map (fetchEntry fetchOutcome)).length = tickers.length
    exact List.length_map _ _
  · intro i
    show (tickers.map (fetchEntry fetchOutcome))[i]? = (tickers[i]?).map (fetchEntry fetchOutcome)
    exact List.getElem?_map ..
  · intro i t e ht he
    show (tickers.map (fetchEntry fetchOutcome))[i]? = _
    rw [List.getElem?_map, ht]
    simp [fetchEntry, he]

/-- C7 witness: the three-ticker scenario in which the middle ticker fails
upstream yields a 3-element array whose middle element is the error entry
and whose outer elements are the two successes. -/
theorem C7_witness :
    (fetchMultipleCompanyFinancials batchOutcome ["TRV", "ZZZZ_INVALID", "PGR"]).length = 3 ∧
    (fetchMultipleCompanyFinancials batchOutcome ["TRV", "ZZZZ_INVALID", "PGR"])[1]? =
      some ⟨"ZZZZ_INVALID",
        some "Failed to fetch data for ZZZZ_INVALID: No financial data available for ZZZZ_INVALID",
        none⟩ ∧
    (fetchMultipleCompanyFinancials batchOutcome ["TRV", "ZZZZ_INVALID", "PGR"])[0]? =
      some ⟨"TRV", none, none⟩ ∧
    (fetchMultipleCompanyFinancials batchOutcome ["TRV", "ZZZZ_INVALID", "PGR"])[2]? =
      some ⟨"PGR", none, none⟩ := by
  have h := C7_batch batchOutcome ["TRV", "ZZZZ_INVALID", "PGR"]
  refine ⟨h.1, h.2.2 1 "ZZZZ_INVALID" _ rfl rfl, ?_, ?_⟩
  · rw [h.2.1 0]
    rfl
  · rw [h.2.1 2]
    rfl

/-- C1 counterexample: with revenue 10000, SG&A 1504, net income 1100 and
random draw 0.135, the pre-rounding values are expense 15.04, loss 76.04,
combined 91.08; the returned fields round separately to 15, 76 and 91.1, and
91.1 is not round1(76 + 15) = 91 — the claimed identity over the already
rounded fields fails. -/
theorem C1_counterexample :
    ¬ (((calculateInsuranceMetrics fdC1 (27/200)).combinedRatio =
          round1 ((calculateInsuranceMetrics fdC1 (27/200)).lossRatio +
                  (calculateInsuranceMetrics fdC1 (27/200)).expenseRatio)) ∧
       ((calculateInsuranceMetrics fdC1 (27/200)).underwritingProfitMargin =
          round1 (100 - (calculateInsuranceMetrics fdC1 (27/200)).combinedRatio))) := by
  have hpm : profitMargin fdC1 = 11 := by norm_num [profitMargin, fdC1]
  have hber : baseExpenseRatio fdC1 = 376/25 := by norm_num [baseExpenseRatio, fdC1]
  have hexp : expenseRatioPre fdC1 = 376/25 := by
    unfold expenseRatioPre
    rw [hber, max_eq_left (by norm_num : (15:ℚ) ≤ 376/25),
      min_eq_left (by norm_num : (376/25:ℚ) ≤ 35)]
  have hest : estimatedCombinedRatio fdC1 (27/200) = 2277/25 := by
    simp only [estimatedCombinedRatio, show fdC1.symbol = none from rfl, Option.getD_none]
    rw [hpm]
    norm_num
    simp
  have hloss : lossRatioPre fdC1 (27/200) = 1901/25 := by
    unfold lossRatioPre
    rw [hest, hexp, max_eq_right (by norm_num : (50:ℚ) ≤ 2277/25 - 376/25)]
    norm_num
  have hcomb : combinedRatioPre fdC1 (27/200) = 2277/25 := by
    unfold combinedRatioPre
    rw [hloss, hexp]
    norm_num
  have hfE : (calculateInsuranceMetrics fdC1 (27/200)).expenseRatio = 15 := by
    show round1 (expenseRatioPre fdC1) = 15
    rw [hexp]
    unfold round1
    rw [jsRound_eq_floor]
    norm_num
  have hfL : (calculateInsuranceMetrics fdC1 (27/200)).lossRatio = 76 := by
    show round1 (lossRatioPre fdC1 (27/200)) = 76
    rw [hloss]
    unfold round1
    rw [jsRound_eq_floor]
    norm_num
  have hfC : (calculateInsuranceMetrics fdC1 (27/200)).combinedRatio = 911/10 := by
    show round1 (combinedRatioPre fdC1 (27/200)) = 911/10
    rw [hcomb]
    unfold round1
    rw [jsRound_eq_floor]
    norm_num
  intro hcontra
  have h1 := hcontra.1
  rw [hfC, hfL, hfE] at h1
  have h91 : round1 (76 + 15 : ℚ) = 91 := by
    unfold round1
    rw [jsRound_eq_floor]
    norm_num
  rw [h91] at h1
  norm_num at h1

/-- C1 amended: the exact identities hold on the pre-rounding values — the
returned combinedRatio is round1 of the exact sum of the pre-rounding loss
and expense ratios, and the returned underwritingProfitMargin is round1 of
100 minus the pre-rounding combined ratio; on the independently rounded
returned fields the identities hold only up to one rounding step of 0.1. -/
theorem C1_amended (fd : FinancialData) (rand : ℚ) :
    (calculateInsuranceMetrics fd rand).combinedRatio =
      round1 (lossRatioPre fd rand + expenseRatioPre fd) ∧
    (calculateInsuranceMetrics fd rand).underwritingProfitMargin =
      round1 (100 - combinedRatioPre fd rand) ∧
    |(calculateInsuranceMetrics fd rand).combinedRatio -
      ((calculateInsuranceMetrics fd rand).lossRatio +
       (calculateInsuranceMetrics fd rand).expenseRatio)| ≤ 1/10 ∧
    |(calculateInsuranceMetrics fd rand).underwritingProfitMargin -
      (100 - (calculateInsuranceMetrics fd rand).combinedRatio)| ≤ 1/10 := by
  refine ⟨rfl, rfl, ?_, ?_⟩
  · show |round1 (lossRatioPre fd rand + expenseRatioPre fd) -
      (round1 (lossRatioPre fd rand) + round1 (expenseRatioPre fd))| ≤ 1/10
    exact round1_add_bound _ _
  · show |round1 (100 - combinedRatioPre fd rand) -
      (100 - round1 (combinedRatioPre fd rand))| ≤ 1/10
    exact round1_complement_bound _

/-- Score table values are nonnegative. -/
theorem scoreMap_nonneg (rating : String) : 0 ≤ scoreMap rating := by
  unfold scoreMap
  split_ifs <;> norm_num

/-- Score table values never exceed 100. -/
theorem scoreMap_le_100 (rating : String) : scoreMap rating ≤ 100 := by
  unfold scoreMap
  split_ifs <;> norm_num

/-- The core-metric loop keeps the running total between 0 and 100 times the
number of scored metrics. -/
theorem loop_bounds (m : CoreMetrics) (names : List String) (acc : LoopAcc)
    (h0 : 0 ≤ acc.totalScore)
    (h1 : acc.totalScore ≤ 100 * (acc.validMetricsCount : ℤ)) :
    0 ≤ (names.foldl (scoreStep m) acc).totalScore ∧
    (names.foldl (scoreStep m) acc).totalScore ≤
      100 * ((names.foldl (scoreStep m) acc).validMetricsCount : ℤ) := by
  induction names generalizing acc with
  | nil => exact ⟨h0, h1⟩
  | cons n ns ih =>
    simp only [List.foldl_cons]
    cases h : m.lookup n with
    | none =>
      have e1 : (scoreStep m acc n).totalScore = acc.totalScore := by
        simp [scoreStep, h]
      have e2 : (scoreStep m acc n).validMetricsCount = acc.validMetricsCount := by
        simp [scoreStep, h]
      exact ih _ (by rw [e1]; exact h0) (by rw [e1, e2]; exact h1)
    | some v =>
      have e1 : (scoreStep m acc n).totalScore =
          acc.totalScore + scoreMap (validateMetric n (some v)).rating := by
        simp [scoreStep, h]
      have e2 : (scoreStep m acc n).validMetricsCount = acc.validMetricsCount + 1 := by
        simp [scoreStep, h]
      refine ih _ ?_ ?_
      · rw [e1]
        exact add_nonneg h0 (scoreMap_nonneg _)
      · rw [e1, e2]
        push_cast
        linarith [scoreMap_le_100 (validateMetric n (some v)).rating]

/-- The rounded average of a total bounded by 100 per scored metric plus a
bonus of at most 10 lies in [0, 110]. -/
theorem overallScoreOf_bounds (acc : LoopAcc) (bonus : ℤ)
    (h0 : 0 ≤ acc.totalScore)
    (h1 : acc.totalScore ≤ 100 * (acc.validMetricsCount : ℤ))
    (hb0 : 0 ≤ bonus) (hb1 : bonus ≤ 10) :
    0 ≤ overallScoreOf acc bonus ∧ overallScoreOf acc bonus ≤ 110 := by
  unfold overallScoreOf
  split_ifs with hc
  · have hcQ : (0:ℚ) < (acc.validMetricsCount : ℚ) := by exact_mod_cast hc
    have hc1 : (1:ℚ) ≤ (acc.validMetricsCount : ℚ) := by
      exact_mod_cast Nat.one_le_iff_ne_zero.mpr (Nat.pos_iff_ne_zero.mp hc)
    have hnum0 : (0:ℚ) ≤ ((acc.totalScore + bonus : ℤ) : ℚ) := by
      exact_mod_cast add_nonneg h0 hb0
    have hq0 : (0:ℚ) ≤ ((acc.totalScore + bonus : ℤ) : ℚ) / (acc.validMetricsCount : ℚ) :=
      div_nonneg hnum0 (le_of_lt hcQ)
    have hqle : ((acc.totalScore + bonus : ℤ) : ℚ) / (acc.validMetricsCount : ℚ) ≤ 110 := by
      rw [div_le_iff₀ hcQ]
      have h1Q : (acc.totalScore : ℚ) ≤ 100 * (acc.validMetricsCount : ℚ) := by
        exact_mod_cast h1
      have hb1Q : (bonus : ℚ) ≤ 10 := by exact_mod_cast hb1
      push_cast
      nlinarith
    constructor
    · rw [jsRound_eq_floor]
      apply Int.le_floor.mpr
      push_cast
      push_cast at hq0
      linarith
    · rw [jsRound_eq_floor]
      have hmono : (⌊((acc.totalScore + bonus : ℤ) : ℚ) / (acc.validMetricsCount : ℚ) + 1/2⌋ : ℤ)
          ≤ ⌊(110:ℚ) + 1/2⌋ := Int.floor_le_floor (by linarith)
      have h110 : (⌊(110:ℚ) + 1/2⌋ : ℤ) = 110 := by norm_num
      omega
  · norm_num

/-- The data quality tier is never the error value on the non-throwing path. -/
theorem dataQualityOf_ne_error (score : ℤ) : dataQualityOf score ≠ "error" := by
  unfold dataQualityOf
  split_ifs <;> decide

/-- C2 counterexample: with all four core metrics rated excellent (total
400) and a successful SEC lookup (bonus 10), the overall score is
round(410 / 4) = 103, exceeding the claimed upper bound 100. -/
theorem C2_counterexample :
    (validateCompanyData "TRV" (some ⟨some metricsC2⟩)
      (.verified "TRAVELERS COMPANIES INC" "0000086312" 100)
      (.indicators none none)).overallScore = 103 ∧
    ¬ ((validateCompanyData "TRV" (some ⟨some metricsC2⟩)
      (.verified "TRAVELERS COMPANIES INC" "0000086312" 100)
      (.indicators none none)).overallScore ≤ 100) := by
  have h : (validateCompanyData "TRV" (some ⟨some metricsC2⟩)
      (.verified "TRAVELERS COMPANIES INC" "0000086312" 100)
      (.indicators none none)).overallScore = 103 := by
    show overallScoreOf (coreMetricNames.foldl (scoreStep metricsC2) ⟨[], [], 0, 0⟩)
      (secBonus (.verified "TRAVELERS COMPANIES INC" "0000086312" 100)) = 103
    simp +decide only [coreMetricNames, scoreStep, metricsC2, CoreMetrics.lookup,
      validateMetric, INDUSTRY_BENCHMARKS, BenchmarkTable.entries, List.find?,
      calculatePercentile, scoreMap, overallScoreOf, secBonus, List.foldl]
    rw [jsRound_eq_floor]
    norm_num
  refine ⟨h, by rw [h]; decide⟩

/-- C2 amended: the overall score always lies in [0, 110]; it can exceed 100
because the SEC verification bonus of 10 is added to the total before the
division by the number of scored metrics (reaching 103 with four excellent
metrics, up to 110 with a single scored metric). -/
theorem C2_amended (ticker : String) (financialData : Option FinancialPayload)
    (sec : SECOutcome) (econ : EconOutcome) :
    0 ≤ (validateCompanyData ticker financialData sec econ).overallScore ∧
    (validateCompanyData ticker financialData sec econ).overallScore ≤ 110 := by
  cases financialData with
  | none =>
    constructor <;> simp [validateCompanyData, validateCompanyDataBody]
  | some payload =>
    cases hm : payload.currentMetrics with
    | none =>
      constructor <;> simp [validateCompanyData, validateCompanyDataBody, hm]
    | some m =>
      have hred : validateCompanyData ticker (some payload) sec econ =
          buildReport ticker m sec econ := by
        simp [validateCompanyData, validateCompanyDataBody, hm]
      rw [hred]
      have hscore : (buildReport ticker m sec econ).overallScore =
          overallScoreOf (coreMetricNames.foldl (scoreStep m) ⟨[], [], 0, 0⟩) (secBonus sec) :=
        rfl
      rw [hscore]
      have hacc := loop_bounds m coreMetricNames ⟨[], [], 0, 0⟩ (by norm_num) (by norm_num)
      have hbonus : 0 ≤ secBonus sec ∧ secBonus sec ≤ 10 := by
        cases sec <;> simp [secBonus]
      exact overallScoreOf_bounds _ _ hacc.1 hacc.2 hbonus.1 hbonus.2

/-- C8: the validation entry point always returns a report. When the
financial data is null or carries no metrics, the internal throw is caught,
the report carries the validation_error warning and dataQuality is error.
When metrics are present, the report's dataQuality is never error, and a
failing SEC or economic lookup is captured as a warning entry (and a
successful SEC lookup as a verified source) instead of being re-thrown. -/
theorem C8_always_returns_report (ticker : String) (financialData : Option FinancialPayload)
    (sec : SECOutcome) (econ : EconOutcome) :
    ((financialData.bind FinancialPayload.currentMetrics) = none →
       (validateCompanyData ticker financialData sec econ).dataQuality = "error" ∧
       (validateCompanyData ticker financialData sec econ).warnings ≠ []) ∧
    (∀ m, (financialData.bind FinancialPayload.currentMetrics) = some m →
       (validateCompanyData ticker financialData sec econ).dataQuality ≠ "error" ∧
       (∀ e, sec = .errorResult e →
         (⟨"sec_validation", "SEC verification failed: " ++ e⟩ : WarningEntry) ∈
           (validateCompanyData ticker financialData sec econ).warnings) ∧
       (∀ e, sec = .threw e →
         (⟨"sec_error", "SEC API error: " ++ e⟩ : WarningEntry) ∈
           (validateCompanyData ticker financialData sec econ).warnings) ∧
       (∀ e, econ = .threw e →
         (⟨"economic_data", "Economic data unavailable: " ++ e⟩ : WarningEntry) ∈
           (validateCompanyData ticker financialData sec econ).warnings) ∧
       (∀ n c f, sec = .verified n c f →
         (⟨"SEC EDGAR", "verified"⟩ : SourceEntry) ∈
           (validateCompanyData ticker financialData sec econ).sources)) := by
  cases financialData with
  | none =>
    constructor
    · intro _
      exact ⟨rfl, by simp [validateCompanyData, validateCompanyDataBody]⟩
    · intro m hm
      simp at hm
  | some payload =>
    cases hm : payload.currentMetrics with
    | none =>
      constructor
      · intro _
        constructor
        · simp [validateCompanyData, validateCompanyDataBody, hm]
        · simp [validateCompanyData, validateCompanyDataBody, hm]
      · intro m hmm
        simp [hm] at hmm
    | some m0 =>
      have hred : validateCompanyData ticker (some payload) sec econ =
          buildReport ticker m0 sec econ := by
        simp [validateCompanyData, validateCompanyDataBody, hm]
      constructor
      · intro hnone
        simp [hm] at hnone
      · intro m hmm
        rw [hred]
        have hwarn : (buildReport ticker m0 sec econ).warnings =
            (coreMetricNames.foldl (scoreStep m0) ⟨[], [], 0, 0⟩).warnings ++
              secWarnings sec ++ econWarnings econ := rfl
        have hsrc : (buildReport ticker m0 sec econ).sources =
            secSources sec ++ econSources econ := rfl
        refine ⟨?_, ?_, ?_, ?_, ?_⟩
        · have hq : (buildReport ticker m0 sec econ).dataQuality =
              dataQualityOf ((buildReport ticker m0 sec econ).overallScore) := rfl
          rw [hq]
          exact dataQualityOf_ne_error _
        · intro e he
          subst he
          rw [hwarn]
          simp [secWarnings]
        · intro e he
          subst he
          rw [hwarn]
          simp [secWarnings]
        · intro e he
          subst he
          rw [hwarn]
          simp [econWarnings]
        · intro n c f he
          subst he
          rw [hsrc]
          simp [secSources]

/-- C8 witness: concrete metrics with both external lookups throwing — the
report is still produced with a non-error quality tier and both failures
captured as warnings. -/
theorem C8_witness :
    (validateCompanyData "TRV" (some ⟨some metricsC2⟩)
      (.threw "offline") (.threw "down")).dataQuality ≠ "error" ∧
    (⟨"sec_error", "SEC API error: " ++ "offline"⟩ : WarningEntry) ∈
      (validateCompanyData "TRV" (some ⟨some metricsC2⟩)
        (.threw "offline") (.threw "down")).warnings ∧
    (⟨"economic_data", "Economic data unavailable: " ++ "down"⟩ : WarningEntry) ∈
      (validateCompanyData "TRV" (some ⟨some metricsC2⟩)
        (.threw "offline") (.threw "down")).warnings := by
  have h := (C8_always_returns_report "TRV" (some ⟨some metricsC2⟩)
    (.threw "offline") (.threw "down")).2 metricsC2 rfl
  exact ⟨h.1, h.2.2.1 "offline" rfl, h.2.2.2.1 "down" rfl⟩

/-- Band lookup bridge: once the benchmark table is found, the percentile
function is its core acting on the table. -/
theorem calcIP_core (metric size : String) (b : SizeBands) (v : ℚ)
    (hb : INDUSTRY_BENCHMARKS_2024 metric size = some b) :
    calculateIndustryPercentile metric (some v) size =
      percentileCore b (lowerIsBetterMetric metric) v := by
  unfold calculateIndustryPercentile
  rw [hb]

/-- For a lower-is-better table whose five bands tile an interval (each band
max equals the next band min), the source percentile lookup agrees with the
claim reading: first containing band wins, and any uncovered value is beyond
the excellent band (95) or beyond the critical band (5) — the fall-through
default 50 is unreachable. -/
theorem percentileCore_eq_claim_asc (b : SizeBands) (v : ℚ)
    (h1 : b.excellent.max = b.good.min) (h2 : b.good.max = b.average.min)
    (h3 : b.average.max = b.poor.min) (h4 : b.poor.max = b.critical.min) :
    percentileCore b true v = claimPercentile b true v := by
  unfold percentileCore claimPercentile
  cases hf : b.entries.find? (fun e => decide (e.2.min ≤ v) && decide (v ≤ e.2.max)) with
  | some e => rfl
  | none =>
    rw [List.find?_eq_none] at hf
    have hE := hf ("excellent", b.excellent) (by simp [SizeBands.entries])
    have hG := hf ("good", b.good) (by simp [SizeBands.entries])
    have hA := hf ("average", b.average) (by simp [SizeBands.entries])
    have hP := hf ("poor", b.poor) (by simp [SizeBands.entries])
    have hC := hf ("critical", b.critical) (by simp [SizeBands.entries])
    simp only [Bool.and_eq_true, decide_eq_true_eq, not_and, not_le] at hE hG hA hP hC
    show (if v < b.excellent.min then (95:ℚ) else if b.critical.max < v then 5 else 50) =
      (if v < b.excellent.min then (95:ℚ) else 5)
    by_cases hlt : v < b.excellent.min
    · rw [if_pos hlt, if_pos hlt]
    · push_neg at hlt
      have s1 : b.excellent.max < v := hE hlt
      have s2 : b.good.max < v := hG (by rw [← h1]; linarith)
      have s3 : b.average.max < v := hA (by rw [← h2]; linarith)
      have s4 : b.poor.max < v := hP (by rw [← h3]; linarith)
      have s5 : b.critical.max < v := hC (by rw [← h4]; linarith)
      rw [if_neg (not_lt.mpr hlt), if_neg (not_lt.mpr hlt), if_pos s5]

/-- For a higher-is-better table whose five bands tile an interval in
descending order (each band min equals the next band max), the source
percentile lookup agrees with the claim reading. -/
theorem percentileCore_eq_claim_desc (b : SizeBands) (v : ℚ)
    (h1 : b.excellent.min = b.good.max) (h2 : b.good.min = b.average.max)
    (h3 : b.average.min = b.poor.max) (h4 : b.poor.min = b.critical.max) :
    percentileCore b false v = claimPercentile b false v := by
  unfold percentileCore claimPercentile
  cases hf : b.entries.find? (fun e => decide (e.2.min ≤ v) && decide (v ≤ e.2.max)) with
  | some e => rfl
  | none =>
    rw [List.find?_eq_none] at hf
    have hE := hf ("excellent", b.excellent) (by simp [SizeBands.entries])
    have hG := hf ("good", b.good) (by simp [SizeBands.entries])
    have hA := hf ("average", b.average) (by simp [SizeBands.entries])
    have hP := hf ("poor", b.poor) (by simp [SizeBands.entries])
    have hC := hf ("critical", b.critical) (by simp [SizeBands.entries])
    simp only [Bool.and_eq_true, decide_eq_true_eq, not_and, not_le] at hE hG hA hP hC
    show (if b.excellent.max < v then (95:ℚ) else if v < b.critical.min then 5 else 50) =
      (if b.excellent.max < v then (95:ℚ) else 5)
    by_cases hgt : b.excellent.max < v
    · rw [if_pos hgt, if_pos hgt]
    · push_neg at hgt
      have s1 : v < b.excellent.min := by
        by_contra hge
        push_neg at hge
        exact absurd (hE hge) (not_lt.mpr hgt)
      have s2 : v < b.good.min := by
        by_contra hge
        push_neg at hge
        have := hG hge
        rw [← h1] at this
        linarith
      have s3 : v < b.average.min := by
        by_contra hge
        push_neg at hge
        have := hA hge
        rw [← h2] at this
        linarith
      have s4 : v < b.poor.min := by
        by_contra hge
        push_neg at hge
        have := hP hge
        rw [← h3] at this
        linarith
      have s5 : v < b.critical.min := by
        by_contra hge
        push_neg at hge
        have := hC hge
        rw [← h4] at this
        linarith
      rw [if_neg (not_lt.mpr hgt), if_neg (not_lt.mpr hgt), if_pos s5]

/-- C5: for every benchmarked metric and size class the classifier assigns
the first band, in canonical order, whose closed interval contains the
value, with that band's percentile; a value outside every band receives 95
beyond the excellent band on the favorable side and 5 beyond the critical
band on the unfavorable side; in particular combinedRatio 92 at size large
rates excellent (percentile 90), 103 lands in the middle band (percentile
50), and 150 yields percentile 5. -/
theorem C5_classifier :
    (∀ metric size : String, ∀ v : ℚ, ∀ b : SizeBands,
       metric ∈ ["combinedRatio", "roe", "lossRatio"] →
       size ∈ ["large", "medium", "small"] →
       INDUSTRY_BENCHMARKS_2024 metric size = some b →
       calculateIndustryPercentile metric (some v) size =
         claimPercentile b (lowerIsBetterMetric metric) v) ∧
    (∀ b : SizeBands, INDUSTRY_BENCHMARKS_2024 "combinedRatio" "large" = some b →
       benchmarkRating b 92 = "excellent" ∧ benchmarkRating b 103 = "average") ∧
    calculateIndustryPercentile "combinedRatio" (some 92) "large" = 90 ∧
    calculateIndustryPercentile "combinedRatio" (some 103) "large" = 50 ∧
    calculateIndustryPercentile "combinedRatio" (some 150) "large" = 5 := by
  refine ⟨?_, ?_, ?_, ?_, ?_⟩
  · intro metric size v b hm hs hb
    fin_cases hm <;> fin_cases hs <;>
      (rw [calcIP_core _ _ _ _ hb]
       simp [INDUSTRY_BENCHMARKS_2024] at hb
       subst hb
       first
         | exact percentileCore_eq_claim_asc _ _
             (by norm_num) (by norm_num) (by norm_num) (by norm_num)
         | exact percentileCore_eq_claim_desc _ _
             (by norm_num) (by norm_num) (by norm_num) (by norm_num))
  · intro b hb
    simp [INDUSTRY_BENCHMARKS_2024] at hb
    subst hb
    constructor
    · norm_num [benchmarkRating, SizeBands.entries, List.find?]
    · norm_num [benchmarkRating, SizeBands.entries, List.find?]
  · norm_num [calculateIndustryPercentile, INDUSTRY_BENCHMARKS_2024, percentileCore,
      lowerIsBetterMetric, SizeBands.entries, List.find?]
  · norm_num [calculateIndustryPercentile, INDUSTRY_BENCHMARKS_2024, percentileCore,
      lowerIsBetterMetric, SizeBands.entries, List.find?]
  · norm_num [calculateIndustryPercentile, INDUSTRY_BENCHMARKS_2024, percentileCore,
      lowerIsBetterMetric, SizeBands.entries, List.find?]

/-- C5 witness: the classifier equivalence applied at combinedRatio, size
large, value 92 against the concrete large-size table. -/
theorem C5_witness :
    calculateIndustryPercentile "combinedRatio" (some 92) "large" =
      claimPercentile
        ⟨⟨88, 95, 90⟩, ⟨95, 100, 75⟩, ⟨100, 105, 50⟩, ⟨105, 110, 25⟩, ⟨110, 120, 10⟩⟩
        (lowerIsBetterMetric "combinedRatio") 92 :=
  C5_classifier.1 "combinedRatio" "large" 92 _ (by simp) (by simp) rfl
